import Mathlib

/-!
Verification development for the Bitget exchange-client layer of the
Phoenix0x-web3/irys repository.

The Python source is shallowly embedded:

* Python scalar values (as they appear in decoded JSON payloads) are modelled
  by `PyVal`; Python truthiness, `dict.get`, `or`-coalescing, `str()`,
  `float()` and `int()` are modelled by `PyVal.truthy`, `pyGetD`, `pyOr`,
  `pyStr`, `pyFloat` and `pyInt`.
* Python `float` arithmetic is modelled by exact rational arithmetic (`ℚ`).
  Every concrete value appearing in a counterexample below is exactly
  representable in binary floating point and involves no rounding, so the
  refutations carry over to the floating-point semantics unchanged.
* Fallible Python code (constructors that can raise, `make_request`) returns
  `Except PyExn _`; an `.error` value models a raised exception.
* `float(s)` / `int(s)` string parsing is modelled for plain decimal
  literals (`parseFloat?` / `parseInt?`); no claim below depends on exotic
  accepted forms (exponents, underscores, whitespace).
-/

/-- A Python runtime value as it appears in decoded JSON payloads:
`None`, numbers (int/float collapsed into `ℚ`), strings, dicts
(association lists in insertion order), lists, and any other object
(`obj`, carrying only its truthiness). -/
inductive PyVal where
  | none
  | num (q : ℚ)
  | str (s : String)
  | dict (fields : List (String × PyVal))
  | list (items : List PyVal)
  | obj (isTruthy : Bool)

/-- Python truthiness (`bool(x)`). -/
def PyVal.truthy : PyVal → Bool
  | .none => false
  | .num q => q != 0
  | .str s => s != ""
  | .dict fields => !fields.isEmpty
  | .list items => !items.isEmpty
  | .obj b => b

/-- First binding of a key in a Python dict (insertion order). -/
def pyLookup? : List (String × PyVal) → String → Option PyVal
  | [], _ => Option.none
  | (k, v) :: rest, key => if k = key then some v else pyLookup? rest key

/-- Python `d.get(key, default)`: the stored value when the key is present
(even if that value is falsy), the default otherwise. -/
def pyGetD (fields : List (String × PyVal)) (key : String) (dflt : PyVal) : PyVal :=
  (pyLookup? fields key).getD dflt

/-- Python `d.get(key)` (default `None`). -/
def pyGet (fields : List (String × PyVal)) (key : String) : PyVal :=
  pyGetD fields key PyVal.none

/-- Python `a or b`. -/
def pyOr (a b : PyVal) : PyVal := if a.truthy then a else b

/-- Python exceptions raised by the modelled code. -/
inductive PyExn where
  | typeError
  | valueError
  | attributeError
  | apiException (response : Option (List (String × PyVal)))

/-- Python `v.get key` on an arbitrary value: fine on a dict, raises
`AttributeError` on anything else (`None.get`, `list.get`, ...). -/
def pyGetE (v : PyVal) (key : String) (dflt : PyVal) : Except PyExn PyVal :=
  match v with
  | .dict fields => .ok (pyGetD fields key dflt)
  | _ => .error .attributeError

/-- Digits of a numeral, most significant first, folded into a `Nat`. -/
def natOfDigits (cs : List Char) : Nat :=
  cs.foldl (fun acc c => acc * 10 + (c.toNat - '0'.toNat)) 0

/-- Parse an unsigned decimal literal (digits, optionally with one dot)
into an exact rational, as Python `float()` accepts it. -/
def parseUnsignedDec? (cs : List Char) : Option ℚ :=
  match cs.span (fun c => c != '.') with
  | (intPart, []) =>
    if intPart.isEmpty then Option.none
    else if intPart.all Char.isDigit then some ((natOfDigits intPart : ℚ))
    else Option.none
  | (intPart, _dot :: frac) =>
    if intPart.isEmpty && frac.isEmpty then Option.none
    else if intPart.all Char.isDigit && frac.all Char.isDigit then
      some ((natOfDigits intPart : ℚ) + (natOfDigits frac : ℚ) / ((10 : ℚ) ^ frac.length))
    else Option.none

/-- Python `float(s)` on a plain decimal string literal. -/
def parseFloat? (s : String) : Option ℚ :=
  match s.data with
  | '-' :: rest => (parseUnsignedDec? rest).map (fun q => -q)
  | '+' :: rest => parseUnsignedDec? rest
  | cs => parseUnsignedDec? cs

/-- Python `int(s)` accepts only integer literals. -/
def parseInt? (s : String) : Option ℤ :=
  match s.data with
  | '-' :: rest =>
    if !rest.isEmpty && rest.all Char.isDigit then some (-(natOfDigits rest : ℤ))
    else Option.none
  | '+' :: rest =>
    if !rest.isEmpty && rest.all Char.isDigit then some ((natOfDigits rest : ℤ))
    else Option.none
  | cs =>
    if !cs.isEmpty && cs.all Char.isDigit then some ((natOfDigits cs : ℤ))
    else Option.none

/-- Python's `float(x)` builtin: numbers pass through, strings are parsed
(`ValueError` on failure), everything else raises `TypeError`. -/
def pyFloat : PyVal → Except PyExn ℚ
  | .num q => .ok q
  | .str s =>
    match parseFloat? s with
    | some q => .ok q
    | Option.none => .error .valueError
  | _ => .error .typeError

/-- Truncation toward zero, as Python `int()` applied to a float. -/
def pyTruncQ (q : ℚ) : ℤ := if 0 ≤ q then ⌊q⌋ else ⌈q⌉

/-- Python's `int(x)` builtin: floats truncate toward zero, strings must be
integer literals, everything else raises `TypeError`. -/
def pyInt : PyVal → Except PyExn ℤ
  | .num q => .ok (pyTruncQ q)
  | .str s =>
    match parseInt? s with
    | some n => .ok n
    | Option.none => .error .valueError
  | _ => .error .typeError

/-- Python `str(x)` for the scalar values the claims exercise; reprs of
aggregate values are opaque placeholders (no claim depends on them). -/
def pyStr : PyVal → String
  | .none => "None"
  | .num q => if q.den = 1 then toString q.num else toString q
  | .str s => s
  | .dict _ => "<dict>"
  | .list _ => "<list>"
  | .obj _ => "<obj>"

/-!
## `FundingToken` (src/libs/exchanger/bitget/models.py, lines 115-138)
-/

/-- The local `_to_float` helper of `FundingToken.__init__`: a failed
`float()` (TypeError/ValueError) becomes `0.0`. -/
def toFloat (x : PyVal) : ℚ :=
  match pyFloat x with
  | .ok q => q
  | .error _ => 0

/-- A constructed `FundingToken` (spot-wallet balance record). -/
structure FundingToken where
  tokenSymbol : PyVal
  bal : ℚ
  availBal : ℚ
  frozenBal : ℚ

/-- `available = _to_float(data.get("available") or data.get("availBal"))`. -/
def parsedAvailable (data : List (String × PyVal)) : ℚ :=
  toFloat (pyOr (pyGet data "available") (pyGet data "availBal"))

/-- `frozen = _to_float(data.get("frozen") or data.get("locked") or
data.get("freeze") or data.get("frozenBal"))`. -/
def parsedFrozen (data : List (String × PyVal)) : ℚ :=
  toFloat (pyOr (pyOr (pyOr (pyGet data "frozen") (pyGet data "locked"))
    (pyGet data "freeze")) (pyGet data "frozenBal"))

/-- `total = _to_float(data.get("balance") or data.get("total") or
data.get("bal"))`. -/
def parsedTotal (data : List (String × PyVal)) : ℚ :=
  toFloat (pyOr (pyOr (pyGet data "balance") (pyGet data "total")) (pyGet data "bal"))

/-- `FundingToken.__init__`: reads `available`/`availBal`,
`frozen`/`locked`/`freeze`/`frozenBal`, `balance`/`total`/`bal` through
Python `or`-chains, then derives a missing total or frozen value. -/
def FundingToken.ofData (data : List (String × PyVal)) : FundingToken :=
  let tokenSymbol := pyOr (pyOr (pyGet data "coin") (pyGet data "ccy")) (PyVal.str "")
  let available := parsedAvailable data
  let frozen := parsedFrozen data
  let total := parsedTotal data
  let total := if total = 0 then available + frozen else total
  let frozen := if frozen = 0 ∧ available ≤ total then total - available else frozen
  { tokenSymbol := tokenSymbol, bal := total, availBal := available, frozenBal := frozen }

/-!
## Deposit / Withdrawal / Transfer records
(src/libs/exchanger/bitget/asset/models.py)

The `statuses_dict` lookup tables for deposit and withdrawal statuses are
empty in the source, so a record's status is always the pass-through
`StateName(raw_state or "", raw_state or "")`; it is modelled by the plain
string `stateState`.
-/

/-- `raw_state or ""` after `str(data.get("state"))` guarded by
`is not None`. -/
def rawStateOf (data : List (String × PyVal)) : String :=
  match pyGet data "state" with
  | .none => ""
  | v => pyStr v

/-- `float(x) if x is not None else 0.0` — unguarded by try/except:
a malformed value raises. -/
def floatOrZero (v : PyVal) : Except PyExn ℚ :=
  match v with
  | .none => .ok 0
  | v => pyFloat v

/-- `int(int(ts) / 1000) if ts else 0` — unguarded: a truthy but
malformed timestamp raises. -/
def tsSeconds (tsRaw : PyVal) : Except PyExn ℤ :=
  if tsRaw.truthy then do
    let i ← pyInt tsRaw
    pure (pyTruncQ ((i : ℚ) / 1000))
  else pure 0

/-- `int(v) if v is not None else 0` — unguarded: a present but
malformed id raises. -/
def intOrZeroIfAbsent (v : PyVal) : Except PyExn ℤ :=
  match v with
  | .none => .ok 0
  | v => pyInt v

/-- `try: int(v) except (TypeError, ValueError): None`. -/
def intOrNone (v : PyVal) : Option ℤ :=
  match pyInt v with
  | .ok n => some n
  | .error _ => Option.none

/-- `try: int(v) except (TypeError, ValueError): 0`. -/
def intOrZero (v : PyVal) : ℤ :=
  match pyInt v with
  | .ok n => n
  | .error _ => 0

/-- A decoded deposit record. -/
structure Deposit where
  tokenSymbol : PyVal
  chain : PyVal
  amt : ℚ
  from_ : PyVal
  areaCodeFrom : PyVal
  to_ : PyVal
  txId : PyVal
  ts : ℤ
  stateState : String
  depId : ℤ
  fromWdId : Option ℤ
  actualDepBlkConfirm : Option ℤ

/-- `Deposit.__init__` (lines 63-92). `amt`, `ts` and `depId` parse
without a try/except and can raise; `fromWdId` and
`actualDepBlkConfirm` default to `None` on parse failure. -/
def Deposit.ofData (data : List (String × PyVal)) : Except PyExn Deposit := do
  let size := pyOr (pyGet data "size") (pyGet data "amt")
  let amt ← floatOrZero size
  let tsRaw := pyOr (pyOr (pyGet data "ts") (pyGet data "cTime")) (pyGet data "createTime")
  let ts ← tsSeconds tsRaw
  let depIdRaw := pyOr (pyGet data "id") (pyGet data "depId")
  let depId ← intOrZeroIfAbsent depIdRaw
  let fromWdId := match pyGet data "fromWdId" with
    | .none => Option.none
    | v => intOrNone v
  let conf := intOrNone (pyOr (pyGet data "confirmations") (pyGet data "actualDepBlkConfirm"))
  pure {
    tokenSymbol := pyOr (pyGet data "coin") (pyGet data "ccy")
    chain := pyGet data "chain"
    amt := amt
    from_ := pyGet data "from"
    areaCodeFrom := pyGet data "areaCodeFrom"
    to_ := pyOr (pyGet data "to") (pyGet data "address")
    txId := pyOr (pyGet data "txId") (pyGet data "hash")
    ts := ts
    stateState := rawStateOf data
    depId := depId
    fromWdId := fromWdId
    actualDepBlkConfirm := conf }

/-- A decoded withdrawal record. -/
structure Withdrawal where
  chain : PyVal
  fee : ℚ
  tokenSymbol : PyVal
  clientId : Option ℤ
  amt : ℚ
  txId : PyVal
  from_ : PyVal
  areaCodeFrom : PyVal
  to_ : PyVal
  areaCodeTo : PyVal
  stateState : String
  ts : ℤ
  wdId : ℤ
  nonTradableAsset : PyVal
  tag : PyVal
  pmtId : PyVal
  memo : PyVal
  addrEx : PyVal
  feeCcy : PyVal

/-- `Withdrawal.__init__` (lines 115-151). `fee`, `amt` and `ts` parse
without a try/except and can raise; `clientId` and `wdId` default to
`None` / `0` on parse failure. -/
def Withdrawal.ofData (data : List (String × PyVal)) : Except PyExn Withdrawal := do
  let fee ← floatOrZero (pyGet data "fee")
  let client := pyOr (pyGet data "clientOid") (pyGet data "clientId")
  let clientId := match client with
    | .none => Option.none
    | v => intOrNone v
  let size := pyOr (pyGet data "size") (pyGet data "amt")
  let amt ← floatOrZero size
  let tsRaw := pyOr (pyOr (pyGet data "ts") (pyGet data "cTime")) (pyGet data "createTime")
  let ts ← tsSeconds tsRaw
  let wdRaw := pyOr (pyOr (pyGet data "id") (pyGet data "withdrawalId")) (pyGet data "wdId")
  let wdId := intOrZero wdRaw
  pure {
    chain := pyGet data "chain"
    fee := fee
    tokenSymbol := pyOr (pyGet data "coin") (pyGet data "ccy")
    clientId := clientId
    amt := amt
    txId := pyOr (pyGet data "txId") (pyGet data "hash")
    from_ := pyGet data "from"
    areaCodeFrom := pyGet data "areaCodeFrom"
    to_ := pyOr (pyGet data "to") (pyGet data "address")
    areaCodeTo := pyGet data "areaCodeTo"
    stateState := rawStateOf data
    ts := ts
    wdId := wdId
    nonTradableAsset := pyGet data "nonTradableAsset"
    tag := pyGet data "tag"
    pmtId := pyGet data "pmtId"
    memo := pyGet data "memo"
    addrEx := pyGet data "addrEx"
    feeCcy := pyGet data "feeCcy" }

/-- A decoded internal-transfer record. -/
structure Transfer where
  transId : ℤ
  clientId : Option ℤ
  tokenSymbol : PyVal
  fromType : PyVal
  toType : PyVal
  amt : ℚ

/-- `Transfer.__init__` (lines 211-233). `transId` and `clientId` are
try-guarded; `amt` (`float(size)`) is not and can raise. -/
def Transfer.ofData (data : List (String × PyVal)) : Except PyExn Transfer := do
  let trans := pyOr (pyOr (pyGet data "transferId") (pyGet data "transId")) (pyGet data "id")
  let transId := intOrZero trans
  let client := pyOr (pyGet data "clientOid") (pyGet data "clientId")
  let clientId := match client with
    | .none => Option.none
    | v => intOrNone v
  let size := pyOr (pyGet data "size") (pyGet data "amt")
  let amt ← floatOrZero size
  pure {
    transId := transId
    clientId := clientId
    tokenSymbol := pyOr (pyGet data "coin") (pyGet data "ccy")
    fromType := pyOr (pyGet data "fromType") (pyGet data "from")
    toType := pyOr (pyGet data "toType") (pyGet data "to")
    amt := amt }

/-- A decoded withdrawal receipt (`WithdrawalToken.__init__`,
lines 161-176). Constructed from `response.get("data")`, which may be a
non-dict — every field read then raises `AttributeError`. -/
structure WithdrawalToken where
  dataVal : PyVal
  amt : ℚ
  wdId : ℤ
  tokenSymbol : PyVal
  clientId : Option ℤ
  chain : PyVal

/-- `WithdrawalToken.__init__`. -/
def WithdrawalToken.ofData (dataVal : PyVal) : Except PyExn WithdrawalToken := do
  let size0 ← pyGetE dataVal "size" PyVal.none
  let amtRaw ← pyGetE dataVal "amt" PyVal.none
  let size := pyOr size0 amtRaw
  let amt ← floatOrZero size
  let wd0 ← pyGetE dataVal "withdrawalId" PyVal.none
  let wd1 ← pyGetE dataVal "wdId" PyVal.none
  let wdId := intOrZero (pyOr wd0 wd1)
  let coin ← pyGetE dataVal "coin" PyVal.none
  let ccy ← pyGetE dataVal "ccy" PyVal.none
  let client0 ← pyGetE dataVal "clientOid" PyVal.none
  let client1 ← pyGetE dataVal "clientId" PyVal.none
  let client := pyOr client0 client1
  let clientId := match client with
    | .none => Option.none
    | v => intOrNone v
  let chain ← pyGetE dataVal "chain" PyVal.none
  pure {
    dataVal := dataVal
    amt := amt
    wdId := wdId
    tokenSymbol := pyOr coin ccy
    clientId := clientId
    chain := chain }

/-!
## Signing engine (src/libs/exchanger/bitget/Base.py, lines 82-104)

`hmac.new(key, msg, digestmod="sha256")` / `hashlib` are Python standard
library primitives; they are embedded concretely: SHA-256 per FIPS 180-4
over byte lists (`Nat` with explicit wraparound), HMAC per RFC 2104 with
block size 64, and standard base64 with padding.
-/

/-- 32-bit wraparound. -/
def w32 (n : Nat) : Nat := n % 4294967296

/-- 32-bit right rotation. -/
def rotr (x n : Nat) : Nat := w32 ((x >>> n) ||| (x <<< (32 - n)))

/-- SHA-256 round constants. -/
def sha256K : List Nat :=
  [1116352408, 1899447441, 3049323471, 3921009573,
   961987163, 1508970993, 2453635748, 2870763221,
   3624381080, 310598401, 607225278, 1426881987,
   1925078388, 2162078206, 2614888103, 3248222580,
   3835390401, 4022224774, 264347078, 604807628,
   770255983, 1249150122, 1555081692, 1996064986,
   2554220882, 2821834349, 2952996808, 3210313671,
   3336571891, 3584528711, 113926993, 338241895,
   666307205, 773529912, 1294757372, 1396182291,
   1695183700, 1986661051, 2177026350, 2456956037,
   2730485921, 2820302411, 3259730800, 3345764771,
   3516065817, 3600352804, 4094571909, 275423344,
   430227734, 506948616, 659060556, 883997877,
   958139571, 1322822218, 1537002063, 1747873779,
   1955562222, 2024104815, 2227730452, 2361852424,
   2428436474, 2756734187, 3204031479, 3329325298]

/-- SHA-256 initial hash state. -/
def sha256H0 : List Nat :=
  [1779033703, 3144134277, 1013904242, 2773480762,
   1359893119, 2600822924, 528734635, 1541459225]

/-- Word at index `i` of a schedule (0 out of range). -/
def wAt (ws : List Nat) (i : Nat) : Nat := ws.getD i 0

/-- The next message-schedule word `W[i]`. -/
def sha256NextW (ws : List Nat) (i : Nat) : Nat :=
  let s0 := (rotr (wAt ws (i - 15)) 7) ^^^ (rotr (wAt ws (i - 15)) 18) ^^^ ((wAt ws (i - 15)) >>> 3)
  let s1 := (rotr (wAt ws (i - 2)) 17) ^^^ (rotr (wAt ws (i - 2)) 19) ^^^ ((wAt ws (i - 2)) >>> 10)
  w32 (wAt ws (i - 16) + s0 + wAt ws (i - 7) + s1)

/-- Extend a 16-word block to the 64-word message schedule (fuel 48). -/
def sha256Extend : Nat → List Nat → List Nat
  | 0, ws => ws
  | fuel + 1, ws => sha256Extend fuel (ws ++ [sha256NextW ws ws.length])

/-- SHA-256 working state. -/
structure Sha256State where
  a : Nat
  b : Nat
  c : Nat
  d : Nat
  e : Nat
  f : Nat
  g : Nat
  h : Nat

/-- One SHA-256 compression round. -/
def sha256Round (ws : List Nat) (st : Sha256State) (i : Nat) : Sha256State :=
  let S1 := (rotr st.e 6) ^^^ (rotr st.e 11) ^^^ (rotr st.e 25)
  let ch := (st.e &&& st.f) ^^^ ((st.e ^^^ 4294967295) &&& st.g)
  let temp1 := w32 (st.h + S1 + ch + wAt sha256K i + wAt ws i)
  let S0 := (rotr st.a 2) ^^^ (rotr st.a 13) ^^^ (rotr st.a 22)
  let maj := (st.a &&& st.b) ^^^ (st.a &&& st.c) ^^^ (st.b &&& st.c)
  let temp2 := w32 (S0 + maj)
  { a := w32 (temp1 + temp2), b := st.a, c := st.b, d := st.c,
    e := w32 (st.d + temp1), f := st.e, g := st.f, h := st.g }

/-- Compress one 512-bit block into the running hash. -/
def sha256Compress (hs : List Nat) (block : List Nat) : List Nat :=
  let ws := sha256Extend 48 block
  let st0 : Sha256State :=
    { a := wAt hs 0, b := wAt hs 1, c := wAt hs 2, d := wAt hs 3,
      e := wAt hs 4, f := wAt hs 5, g := wAt hs 6, h := wAt hs 7 }
  let st := (List.range 64).foldl (sha256Round ws) st0
  [w32 (wAt hs 0 + st.a), w32 (wAt hs 1 + st.b), w32 (wAt hs 2 + st.c), w32 (wAt hs 3 + st.d),
   w32 (wAt hs 4 + st.e), w32 (wAt hs 5 + st.f), w32 (wAt hs 6 + st.g), w32 (wAt hs 7 + st.h)]

/-- MD-strengthening padding: `0x80`, zeros to 56 mod 64, 64-bit big-endian
bit length. -/
def sha256Pad (msg : List Nat) : List Nat :=
  let L := msg.length * 8
  let z := (119 - msg.length % 64) % 64
  msg ++ [128] ++ List.replicate z 0 ++ ((List.range 8).map (fun i => (L >>> ((7 - i) * 8)) % 256))

/-- Big-endian 4-byte groups into 32-bit words. -/
def bytesToWords : List Nat → List Nat
  | b0 :: b1 :: b2 :: b3 :: rest => (b0 * 16777216 + b1 * 65536 + b2 * 256 + b3) :: bytesToWords rest
  | _ => []

/-- Split a word list into 16-word blocks (fuel-driven). -/
def chunk16 : Nat → List Nat → List (List Nat)
  | 0, _ => []
  | _, [] => []
  | fuel + 1, ws => ws.take 16 :: chunk16 fuel (ws.drop 16)

/-- A 32-bit word as 4 big-endian bytes. -/
def wordBytes (w : Nat) : List Nat :=
  [(w >>> 24) % 256, (w >>> 16) % 256, (w >>> 8) % 256, w % 256]

/-- SHA-256 of a byte list, as a 32-byte list. -/
def sha256 (msg : List Nat) : List Nat :=
  let ws := bytesToWords (sha256Pad msg)
  let blocks := chunk16 ws.length ws
  let final := blocks.foldl sha256Compress sha256H0
  final.foldr (fun w acc => wordBytes w ++ acc) []

/-- HMAC-SHA-256 (RFC 2104, block size 64). -/
def hmacSha256 (key msg : List Nat) : List Nat :=
  let key := if key.length > 64 then sha256 key else key
  let key := key ++ List.replicate (64 - key.length) 0
  let opad := key.map (fun b => b ^^^ 92)
  let ipad := key.map (fun b => b ^^^ 54)
  sha256 (opad ++ sha256 (ipad ++ msg))

/-- The base64 alphabet. -/
def b64Char (n : Nat) : Char :=
  "ABCDEFGHIJKLMNOPQRSTUVWXYZabcdefghijklmnopqrstuvwxyz0123456789+/".data.getD n 'A'

/-- Standard base64 encoding of a byte list, with `=` padding. -/
def base64Chars : List Nat → List Char
  | b0 :: b1 :: b2 :: rest =>
    b64Char (b0 >>> 2) :: b64Char (((b0 % 4) <<< 4) + (b1 >>> 4)) ::
    b64Char (((b1 % 16) <<< 2) + (b2 >>> 6)) :: b64Char (b2 % 64) :: base64Chars rest
  | [b0, b1] =>
    [b64Char (b0 >>> 2), b64Char (((b0 % 4) <<< 4) + (b1 >>> 4)),
     b64Char (((b1 % 16) <<< 2)), '=']
  | [b0] =>
    [b64Char (b0 >>> 2), b64Char ((b0 % 4) <<< 4), '=', '=']
  | [] => []

/-- `base64.b64encode(..).decode()`. -/
def base64Encode (bs : List Nat) : String := String.mk (base64Chars bs)

/-- UTF-8 bytes of a character. -/
def utf8CharBytes (c : Char) : List Nat :=
  let n := c.toNat
  if n < 128 then [n]
  else if n < 2048 then [192 + n / 64, 128 + n % 64]
  else if n < 65536 then [224 + n / 4096, 128 + (n / 64) % 64, 128 + n % 64]
  else [240 + n / 262144, 128 + (n / 4096) % 64, 128 + (n / 64) % 64, 128 + n % 64]

/-- `bytes(s, encoding="utf-8")`. -/
def utf8Bytes (s : String) : List Nat :=
  s.data.foldr (fun c acc => utf8CharBytes c ++ acc) []

/-- JSON string escaping (quote, backslash and the common control
characters; non-ASCII pass-through — no claim depends on `ensure_ascii`). -/
def jsonEscape (s : String) : String :=
  String.mk (s.data.foldr (fun c acc =>
    if c = '"' then '\\' :: '"' :: acc
    else if c = '\\' then '\\' :: '\\' :: acc
    else if c = '\n' then '\\' :: 'n' :: acc
    else if c = '\r' then '\\' :: 'r' :: acc
    else if c = '\t' then '\\' :: 't' :: acc
    else c :: acc) [])

/-- A JSON number, as `json.dumps` prints ints (floats by placeholder —
no claim depends on float repr). -/
def jsonNum (q : ℚ) : String := if q.den = 1 then toString q.num else toString q

mutual

/-- `json.dumps` of a value with the given key/value and item separators. -/
def jsonDumpVal (kvSep itemSep : String) : PyVal → String
  | .none => "null"
  | .num q => jsonNum q
  | .str s => "\"" ++ jsonEscape s ++ "\""
  | .dict fields => "\x7b" ++ jsonDumpFields kvSep itemSep fields ++ "\x7d"
  | .list items => "[" ++ jsonDumpItems kvSep itemSep items ++ "]"
  | .obj _ => "\"<obj>\""

/-- Serialize dict entries. -/
def jsonDumpFields (kvSep itemSep : String) : List (String × PyVal) → String
  | [] => ""
  | [(k, v)] => "\"" ++ jsonEscape k ++ "\"" ++ kvSep ++ jsonDumpVal kvSep itemSep v
  | (k, v) :: rest =>
    "\"" ++ jsonEscape k ++ "\"" ++ kvSep ++ jsonDumpVal kvSep itemSep v ++ itemSep ++
      jsonDumpFields kvSep itemSep rest

/-- Serialize list items. -/
def jsonDumpItems (kvSep itemSep : String) : List PyVal → String
  | [] => ""
  | [v] => jsonDumpVal kvSep itemSep v
  | v :: rest => jsonDumpVal kvSep itemSep v ++ itemSep ++ jsonDumpItems kvSep itemSep rest

end

/-- `json.dumps(body)` with default separators, as `generate_sign` uses. -/
def jsonDumpsDefault (fields : List (String × PyVal)) : String :=
  jsonDumpVal ": " ", " (.dict fields)

/-- `json.dumps(body, separators=(",", ":"))`, as `make_request` uses. -/
def jsonDumpsCompact (fields : List (String × PyVal)) : String :=
  jsonDumpVal ":" "," (.dict fields)

/-- The `body` argument of `generate_sign`: `dict | str`. -/
inductive SignBody where
  | dict (fields : List (String × PyVal))
  | str (s : String)

/-- Python truthiness of a `dict | str` body. -/
def SignBody.truthy : SignBody → Bool
  | .dict fields => !fields.isEmpty
  | .str s => s != ""

/-- `Base.generate_sign` (lines 82-104): falsy bodies collapse to `""`,
dict bodies are `json.dumps`-serialized, and the signature is
`base64(HMAC-SHA256(secret_key, timestamp + method + request_path + body))`
(returned decoded to a string, as the header uses it). -/
def generate_sign (secretKey timestamp method requestPath : String) (body : SignBody) : String :=
  let body := if body.truthy then body else SignBody.str ""
  let bodyStr := match body with
    | .dict fields => jsonDumpsDefault fields
    | .str s => s
  let key := utf8Bytes secretKey
  let msg := utf8Bytes (timestamp ++ method ++ requestPath ++ bodyStr)
  base64Encode (hmacSha256 key msg)

/-- Modelled from the spec:
`signature = base64(HMAC-SHA256(secret_key, timestamp+method+path+body))`
with a string body, the reference formula of §3 and §8. -/
def specSignature (secretKey timestamp method path body : String) : String :=
  base64Encode (hmacSha256 (utf8Bytes secretKey)
    (utf8Bytes (timestamp ++ method ++ path ++ body)))

/-!
## `make_request` (src/libs/exchanger/bitget/Base.py, lines 106-210)

Transport and wall clock are oracles supplied through `MkReqEnv`:
`nowA`-`nowD` are the successive values `_now_ms()` would return at each
of its call sites, `serverA`/`serverC` the parsed server time a
`_sync_time` round trip would obtain (`Option.none` when the endpoint
fails or returns nothing parseable — the `try/except` of `_sync_time`
then leaves the offset unchanged), and `resp1`/`resp2` the transport
outcomes of the first and retried request.
-/

/-- Outcome of one HTTP round trip. -/
inductive TResp where
  | exn
  | notDict
  | json (fields : List (String × PyVal))

/-- Oracle environment for one `make_request` call. -/
structure MkReqEnv where
  offset0 : ℤ
  nowA : ℤ
  serverA : Option ℤ
  nowB : ℤ
  resp1 : TResp
  nowC : ℤ
  serverC : Option ℤ
  nowD : ℤ
  resp2 : TResp

/-- `Base._sync_time` (lines 55-71): on success the offset becomes
`server_ms - _now_ms()`, otherwise it is left unchanged. -/
def syncOffset (offset now : ℤ) (server : Option ℤ) : ℤ :=
  match server with
  | some s => s - now
  | Option.none => offset

/-- The headers of one issued request that vary across the retry:
`ACCESS-TIMESTAMP` and `ACCESS-SIGN`. -/
structure SentRequest where
  timestamp : String
  sign : String

/-- The three `raise exceptions.APIException(...)` sites of
`make_request`. -/
inductive APIExn where
  | transportError
  | badResponse
  | apiError (response : List (String × PyVal))

/-- The observable result of one `make_request` call: the returned or
raised value, the requests issued (in order), the number of `_sync_time`
round trips, and the final cached offset. -/
structure MkReqResult where
  outcome : Except APIExn (List (String × PyVal))
  requests : List SentRequest
  syncCount : Nat
  finalOffset : ℤ

/-- `urlencode(query=body, doseq=True)` — percent-escaping elided; no
claim depends on the encoded text. -/
def urlencode (fields : List (String × PyVal)) : String :=
  String.intercalate "&" (fields.map (fun kv => kv.1 ++ "=" ++ pyStr kv.2))

/-- `self._time_offset_ms` after the lazy first-use sync (taken only
when the cached offset is 0). -/
def mrOffset1 (env : MkReqEnv) : ℤ :=
  if env.offset0 = 0 then syncOffset env.offset0 env.nowA env.serverA else env.offset0

/-- `_sync_time` round trips before the first request is issued. -/
def mrSyncs1 (env : MkReqEnv) : Nat := if env.offset0 = 0 then 1 else 0

/-- The offset after the `"40008"` resynchronization. -/
def mrOffset2 (env : MkReqEnv) : ℤ := syncOffset (mrOffset1 env) env.nowC env.serverC

/-- GET with a non-empty body: parameters move into the query string. -/
def mrMoveToQuery (method0 : String) (body0 : Option (List (String × PyVal))) : Bool :=
  (method0.toUpper == "GET") && !(body0.getD []).isEmpty

/-- The request path actually signed and sent. -/
def mrPath (method0 requestPath0 : String) (body0 : Option (List (String × PyVal))) : String :=
  if mrMoveToQuery method0 body0 then requestPath0 ++ "?" ++ urlencode (body0.getD [])
  else requestPath0

/-- `body_str_for_sign`: the empty string for GET, the compact-JSON
serialization of the (possibly emptied) body otherwise. -/
def mrBodySign (method0 : String) (body0 : Option (List (String × PyVal))) : String :=
  if method0.toUpper = "GET" then ""
  else jsonDumpsCompact (if mrMoveToQuery method0 body0 then [] else body0.getD [])

/-- The first issued request: signed over the offset-corrected
timestamp taken before the first send. -/
def mrReq1 (secretKey : String) (env : MkReqEnv) (method0 requestPath0 : String)
    (body0 : Option (List (String × PyVal))) : SentRequest :=
  { timestamp := toString (env.nowB + mrOffset1 env)
    sign := generate_sign secretKey (toString (env.nowB + mrOffset1 env)) method0.toUpper
      (mrPath method0 requestPath0 body0) (.str (mrBodySign method0 body0)) }

/-- The retried request: the same method, path and body string, signed
over the fresh offset-corrected timestamp taken after the
resynchronization. -/
def mrReq2 (secretKey : String) (env : MkReqEnv) (method0 requestPath0 : String)
    (body0 : Option (List (String × PyVal))) : SentRequest :=
  { timestamp := toString (env.nowD + mrOffset2 env)
    sign := generate_sign secretKey (toString (env.nowD + mrOffset2 env)) method0.toUpper
      (mrPath method0 requestPath0 body0) (.str (mrBodySign method0 body0)) }

/-- The final success check (`if str(code) != "00000": raise`), shared
by the plain and the retried path: anything but a literal `"00000"` code
— including a missing one, whose `str(None)` is `"None"` — raises
`APIException` carrying the response. -/
def mrCheckOutcome (response : List (String × PyVal)) :
    Except APIExn (List (String × PyVal)) :=
  if pyStr (pyGet response "code") = "00000" then .ok response
  else .error (.apiError response)

/-- `Base.make_request` (lines 106-210): lazy first-use clock sync,
GET bodies moved into the query string, compact-JSON POST bodies signed
byte-identically with the transmitted body, one transparent
resync-and-retry on code `"40008"`, raw return of a code-less first
response, and `APIException` on any other non-`"00000"` code. -/
def make_request (secretKey : String) (env : MkReqEnv) (method0 requestPath0 : String)
    (body0 : Option (List (String × PyVal))) : MkReqResult :=
  let offset1 := mrOffset1 env
  let syncs1 := mrSyncs1 env
  let req1 := mrReq1 secretKey env method0 requestPath0 body0
  match env.resp1 with
  | .exn => { outcome := .error .transportError, requests := [req1],
              syncCount := syncs1, finalOffset := offset1 }
  | .notDict => { outcome := .error .badResponse, requests := [req1],
                  syncCount := syncs1, finalOffset := offset1 }
  | .json response =>
    match pyGet response "code" with
    | .none => { outcome := .ok response, requests := [req1],
                 syncCount := syncs1, finalOffset := offset1 }
    | code =>
      if pyStr code = "40008" then
        let offset2 := mrOffset2 env
        let req2 := mrReq2 secretKey env method0 requestPath0 body0
        match env.resp2 with
        | .exn => { outcome := .error .transportError, requests := [req1, req2],
                    syncCount := syncs1 + 1, finalOffset := offset2 }
        | .notDict => { outcome := .error .badResponse, requests := [req1, req2],
                        syncCount := syncs1 + 1, finalOffset := offset2 }
        | .json response2 =>
          { outcome := mrCheckOutcome response2, requests := [req1, req2],
            syncCount := syncs1 + 1, finalOffset := offset2 }
      else
        { outcome := mrCheckOutcome response, requests := [req1],
          syncCount := syncs1, finalOffset := offset1 }

/-!
## Chain-name resolution
(src/utils/exchanger/bitget.py, `BitgetActions._resolve_chain_name`,
lines 329-378)

The currency chain list is fetched over the network; the resolution logic
is modelled over an already-fetched chain list, which is how the claim
quantifies it ("over the same currency chain list").
-/

/-- `needle` is a prefix of `hay`. -/
def charsStartWith : List Char → List Char → Bool
  | _, [] => true
  | [], _ :: _ => false
  | h :: hs, n :: ns => h = n && charsStartWith hs ns

/-- Substring test on character lists (Python `needle in hay`; the empty
needle is contained in everything). -/
def charsContain : List Char → List Char → Bool
  | [], needle => needle.isEmpty
  | h :: rest, needle => charsStartWith (h :: rest) needle || charsContain rest needle

/-- Python `needle in hay` on strings. -/
def strContains (hay needle : String) : Bool := charsContain hay.data needle.data

/-- The local `_norm`: lowercase, then keep alphanumeric characters only
(character-wise, which is what `str.lower` does on ASCII chain names). -/
def normChain (s : String) : String :=
  String.mk ((s.data.map Char.toLower).filter Char.isAlphanum)

/-- The ordered alias fields read from every chain entry. -/
def chainAliasKeys : List String :=
  ["chain", "chainName", "network", "name", "symbol", "chainSymbol", "withdrawChain",
   "displayName"]

/-- `names`: the alias values of a chain entry that are strings. -/
def chainNames (fields : List (String × PyVal)) : List String :=
  (chainAliasKeys.map (pyGet fields)).filterMap (fun v =>
    match v with
    | .str s => some s
    | _ => Option.none)

/-- The match test of the resolution loop: some alias normalizes to
`want`, or contains it, or is contained in it. -/
def chainMatches (want : String) (fields : List (String × PyVal)) : Bool :=
  let names := chainNames fields
  names.any (fun n => normChain n == want) ||
    names.any (fun n => strContains want (normChain n) || strContains (normChain n) want)

/-- The canonical name returned on a match:
`chainName or displayName or withdrawChain or chain or network or names[0]`. -/
def canonicalOf (fields : List (String × PyVal)) : PyVal :=
  pyOr (pyOr (pyOr (pyOr (pyOr (pyGet fields "chainName") (pyGet fields "displayName"))
    (pyGet fields "withdrawChain")) (pyGet fields "chain")) (pyGet fields "network"))
    (.str ((chainNames fields).headD ""))

/-- The resolution loop: first matching dict entry wins; non-dict entries
are skipped. -/
def resolveChainFrom (want : String) : List PyVal → Option PyVal
  | [] => Option.none
  | c :: rest =>
    match c with
    | .dict fields =>
      if chainMatches want fields then some (canonicalOf fields)
      else resolveChainFrom want rest
    | _ => resolveChainFrom want rest

/-- `BitgetActions._resolve_chain_name` over a fetched chain list: an
empty normalized user string resolves to nothing, otherwise the first
matching entry's canonical name. -/
def resolve_chain_name (chains : List PyVal) (userChain : String) : Option PyVal :=
  let want := normChain userChain
  if want = "" then Option.none else resolveChainFrom want chains

/-!
## `check_withdrawal_status`
(src/utils/exchanger/bitget.py, lines 457-489)

The withdrawal-history dict is iterated in insertion order; it is
modelled as the decoded record list.
-/

/-- Python `v == s` between a decoded field and a string: equal strings
only (a `None` or numeric field never equals a string). -/
def pyEqStr (v : PyVal) (s : String) : Bool :=
  match v with
  | .str t => t == s
  | _ => false

/-- The terminal-success state set. -/
def terminalStates : List String := ["success", "completed", "done", "finished"]

/-- `tx.chain == chain and tx.to_ == to_address`. -/
def matchesWithdrawal (tx : Withdrawal) (toAddress chain : String) : Bool :=
  pyEqStr tx.chain chain && pyEqStr tx.to_ toAddress

/-- `str.lower`, character-wise (the state strings are ASCII). -/
def pyLower (s : String) : String := String.mk (s.data.map Char.toLower)

/-- `(tx.state.state or "").lower() in {"success", "completed", "done",
"finished"}` (the record's state object is always populated). -/
def isTerminalState (tx : Withdrawal) : Bool :=
  terminalStates.contains (pyLower tx.stateState)

/-- `BitgetActions.check_withdrawal_status` over the fetched records: the
first record matching address and chain decides the result; no match is
`False`. -/
def check_withdrawal_status : List Withdrawal → String → String → Bool
  | [], _, _ => false
  | tx :: rest, toAddress, chain =>
    if matchesWithdrawal tx toAddress chain then isTerminalState tx
    else check_withdrawal_status rest toAddress chain

/-!
## `BitgetActions.withdraw` (src/utils/exchanger/bitget.py, lines 380-455)

The collaborators are oracles: whether a client was constructed, what
chain resolution returns (or raises), and what the underlying
`asset.withdrawal` request returns (or raises). The receipt construction
(`WithdrawalToken`) happens inside `asset.withdrawal`, i.e. inside the
inner try block.
-/

/-- Oracle environment for one `BitgetActions.withdraw` call. -/
structure WithdrawEnv where
  clientConfigured : Bool
  resolveOutcome : Except PyExn (Option PyVal)
  callOutcome : Except PyExn (List (String × PyVal))

/-- The ordered candidate id fields: the receipt's `wdId` and `clientId`
attributes, then `withdrawalId` / `orderId` / `clientOid` from the raw
response data. -/
def candidatesOf (wt : WithdrawalToken) : List PyVal :=
  [PyVal.num (wt.wdId : ℚ),
   (match wt.clientId with
    | some n => PyVal.num (n : ℚ)
    | Option.none => PyVal.none),
   (match wt.dataVal with
    | .dict f => pyGet f "withdrawalId"
    | _ => PyVal.none),
   (match wt.dataVal with
    | .dict f => pyGet f "orderId"
    | _ => PyVal.none),
   (match wt.dataVal with
    | .dict f => pyGet f "clientOid"
    | _ => PyVal.none)]

/-- Result of `BitgetActions.withdraw`: a truthy id value, or `False`. -/
inductive WithdrawResult where
  | id (v : PyVal)
  | failed

/-- The body of `withdraw` before its outer exception handlers. -/
def withdrawInner (env : WithdrawEnv) : Except PyExn WithdrawResult := do
  if !env.clientConfigured then pure .failed
  else do
    let resolved ← env.resolveOutcome
    let resolvedTruthy := match resolved with
      | some v => v.truthy
      | Option.none => false
    if !resolvedTruthy then pure .failed
    else
      match env.callOutcome with
      | .error _ => pure .failed
      | .ok response =>
        match WithdrawalToken.ofData (pyGet response "data") with
        | .error _ => pure .failed
        | .ok wt =>
          match (candidatesOf wt).find? PyVal.truthy with
          | some v => pure (.id v)
          | Option.none => pure .failed

/-- `BitgetActions.withdraw`: the outer `except APIException` /
`except BaseException` handlers turn any remaining exception into
`False`. -/
def withdraw (env : WithdrawEnv) : WithdrawResult :=
  match withdrawInner env with
  | .ok r => r
  | .error _ => .failed

/-!
## Master-UID caching
(src/libs/exchanger/bitget/asset/Asset.py, lines 37-57 and 373-375)
-/

/-- `Asset._get_master_uid` as a state transformer: takes the cached
`_master_uid` and the account-info response the endpoint would return;
yields the uid, the new cache, and whether an account-info request was
issued. A truthiness check guards the cache, so an empty cached string
does not short-circuit. -/
def getMasterUid (cache : Option String) (resp : List (String × PyVal)) :
    Except PyExn (String × Option String × Bool) :=
  let cachedTruthy := match cache with
    | some s => s != ""
    | Option.none => false
  if cachedTruthy then .ok (cache.getD "", cache, false)
  else do
    let dataDefault := pyGetD resp "data" (PyVal.dict [])
    let inner ← pyGetE dataDefault "userId" (PyVal.str "")
    let uid0 := pyStr inner
    let uid ←
      if uid0 = "" then
        match pyGet resp "data" with
        | .list (first :: _) => do
          let u ← pyGetE first "userId" (PyVal.str "")
          pure (pyStr u)
        | _ => pure uid0
      else pure uid0
    pure (uid, some uid, true)

/-- The subaccount branch of `Asset.transfer`: a truthy `subAcct`
triggers `_get_master_uid`; otherwise no account-info request happens. -/
def transferUidStep (subAcct : PyVal) (cache : Option String)
    (resp : List (String × PyVal)) : Except PyExn (Option String × Bool) :=
  if subAcct.truthy then (getMasterUid cache resp).map (fun r => (r.2.1, r.2.2))
  else .ok (cache, false)

/-!
## Theorems
-/

/-- C1: Signing is deterministic and matches the reference formula: for
every (timestamp, method, request_path, body) with body a string,
`Base.generate_sign` returns exactly
base64(HMAC-SHA256(secret_key, timestamp+method+request_path+body)), and
two calls with identical inputs and the same secret_key always produce
the same signature. -/
theorem generate_sign_matches_reference_formula :
    (∀ (sk ts m p b : String),
      generate_sign sk ts m p (.str b) = specSignature sk ts m p b)
    ∧ (∀ (sk ts m p : String) (b₁ b₂ : SignBody), b₁ = b₂ →
      generate_sign sk ts m p b₁ = generate_sign sk ts m p b₂) := by
  constructor
  · intro sk ts m p b
    by_cases hb : b = "" <;>
      simp [generate_sign, specSignature, SignBody.truthy, hb]
  · intro sk ts m p b₁ b₂ h
    rw [h]

/-- C1 witness. -/
theorem generate_sign_matches_reference_formula_witness :
    generate_sign "key" "1700000000000" "GET" "/api/v2/abc" (.str "") =
      specSignature "key" "1700000000000" "GET" "/api/v2/abc" ""
    ∧ generate_sign "key" "1" "POST" "/p" (.str "x") =
      generate_sign "key" "1" "POST" "/p" (.str "x") :=
  ⟨generate_sign_matches_reference_formula.1 "key" "1700000000000" "GET" "/api/v2/abc" "",
   generate_sign_matches_reference_formula.2 "key" "1" "POST" "/p" (.str "x") (.str "x") rfl⟩

/-- C5 counterexample: with all three of available, frozen and total
supplied as `{available: 10, frozen: 0, total: 15}`, the constructed
`frozenBal` is 5, not the supplied 0 — the supplied frozen value is
recomputed because `0` is falsy in the `or`-chain and triggers the
`frozen == 0.0` derivation. -/
theorem funding_token_supplied_zero_recomputed :
    (FundingToken.ofData
      [("available", .num 10), ("frozen", .num 0), ("total", .num 15)]).frozenBal = 5
    ∧ (FundingToken.ofData
      [("available", .num 10), ("frozen", .num 0), ("total", .num 15)]).frozenBal ≠ 0 := by
  constructor <;>
    · simp +decide [FundingToken.ofData, parsedAvailable, parsedFrozen, parsedTotal, pyGet,
        pyGetD, pyLookup?, pyOr, PyVal.truthy, toFloat, pyFloat]
      norm_num

/-- C5 (amended): given {available: 10, total: 15}, frozen resolves to 5;
given {available: 10, frozen: 3}, total resolves to 13; and when all
three of available, frozen and total are supplied with nonzero parsed
values, none of them is recomputed — each constructed field equals the
supplied value (a field supplied as zero, or unparseable, is treated as
missing and may be recomputed). -/
theorem funding_token_normalization :
    (FundingToken.ofData [("available", .num 10), ("total", .num 15)]).frozenBal = 5
    ∧ (FundingToken.ofData [("available", .num 10), ("frozen", .num 3)]).bal = 13
    ∧ (∀ qa qf qt : ℚ, qf ≠ 0 → qt ≠ 0 →
      (FundingToken.ofData
        [("available", .num qa), ("frozen", .num qf), ("total", .num qt)]).bal = qt
      ∧ (FundingToken.ofData
        [("available", .num qa), ("frozen", .num qf), ("total", .num qt)]).availBal = qa
      ∧ (FundingToken.ofData
        [("available", .num qa), ("frozen", .num qf), ("total", .num qt)]).frozenBal = qf) := by
  refine ⟨?_, ?_, ?_⟩
  · simp +decide [FundingToken.ofData, parsedAvailable, parsedFrozen, parsedTotal, pyGet,
      pyGetD, pyLookup?, pyOr, PyVal.truthy, toFloat, pyFloat]
    try norm_num
  · simp +decide [FundingToken.ofData, parsedAvailable, parsedFrozen, parsedTotal, pyGet,
      pyGetD, pyLookup?, pyOr, PyVal.truthy, toFloat, pyFloat]
    try norm_num
  · intro qa qf qt hf ht
    rcases eq_or_ne qa 0 with ha | ha <;>
      simp +decide [FundingToken.ofData, parsedAvailable, parsedFrozen, parsedTotal, pyGet,
        pyGetD, pyLookup?, pyOr, PyVal.truthy, toFloat, pyFloat, hf, ht, ha]

/-- C5 witness. -/
theorem funding_token_normalization_witness :
    (FundingToken.ofData
      [("available", .num 10), ("frozen", .num 3), ("total", .num 15)]).bal = 15
    ∧ (FundingToken.ofData
      [("available", .num 10), ("frozen", .num 3), ("total", .num 15)]).availBal = 10
    ∧ (FundingToken.ofData
      [("available", .num 10), ("frozen", .num 3), ("total", .num 15)]).frozenBal = 3 :=
  funding_token_normalization.2.2 10 3 15 (by norm_num) (by norm_num)

/-- C10 counterexample: on `{available: 10, frozen: 3, total: 100}` the
parsed total (100) is at least the parsed available amount (10), yet
`bal = 100 ≠ 10 + 3 = availBal + frozenBal` — a supplied nonzero frozen
suppresses the derivation and nothing reconciles the three fields. -/
theorem funding_token_accounting_counterexample :
    parsedAvailable [("available", .num 10), ("frozen", .num 3), ("total", .num 100)]
      ≤ parsedTotal [("available", .num 10), ("frozen", .num 3), ("total", .num 100)]
    ∧ (FundingToken.ofData
        [("available", .num 10), ("frozen", .num 3), ("total", .num 100)]).bal ≠
      (FundingToken.ofData
        [("available", .num 10), ("frozen", .num 3), ("total", .num 100)]).availBal +
      (FundingToken.ofData
        [("available", .num 10), ("frozen", .num 3), ("total", .num 100)]).frozenBal := by
  constructor <;>
    · simp +decide [FundingToken.ofData, parsedAvailable, parsedFrozen, parsedTotal, pyGet,
        pyGetD, pyLookup?, pyOr, PyVal.truthy, toFloat, pyFloat]
      try norm_num

/-- C10 (amended): for every input dictionary whose parsed total is 0.0,
or whose parsed frozen is 0.0 while the parsed total is at least the
parsed available amount, the constructed `FundingToken` satisfies
`bal = availBal + frozenBal`; and the constructed `availBal` always
equals the parsed available value (it is never recomputed from the other
two fields). -/
theorem funding_token_accounting_invariant :
    ∀ data : List (String × PyVal),
      ((parsedTotal data = 0 ∨
        (parsedFrozen data = 0 ∧ parsedAvailable data ≤ parsedTotal data)) →
        (FundingToken.ofData data).bal =
          (FundingToken.ofData data).availBal + (FundingToken.ofData data).frozenBal)
      ∧ (FundingToken.ofData data).availBal = parsedAvailable data := by
  intro data
  constructor
  · intro h
    rcases h with h | ⟨hf, hle⟩
    · rcases eq_or_ne (parsedFrozen data) 0 with hf | hf <;>
        simp [FundingToken.ofData, h, hf]
    · rcases eq_or_ne (parsedTotal data) 0 with ht | ht <;>
        simp [FundingToken.ofData, ht, hf, hle]
  · simp [FundingToken.ofData]

/-- C10 witness. -/
theorem funding_token_accounting_invariant_witness :
    (FundingToken.ofData [("available", .num 10), ("total", .num 15)]).bal =
      (FundingToken.ofData [("available", .num 10), ("total", .num 15)]).availBal +
      (FundingToken.ofData [("available", .num 10), ("total", .num 15)]).frozenBal :=
  (funding_token_accounting_invariant [("available", .num 10), ("total", .num 15)]).1
    (Or.inr ⟨by simp +decide [parsedFrozen, pyGet, pyGetD, pyLookup?, pyOr, PyVal.truthy,
        toFloat, pyFloat],
      by simp +decide [parsedAvailable, parsedTotal, pyGet, pyGetD, pyLookup?, pyOr,
        PyVal.truthy, toFloat, pyFloat]; try norm_num⟩)

/-- A raw field value that cannot make an unguarded numeric conversion
raise: absent (`None`) or already numeric. -/
def numericOrAbsent (v : PyVal) : Prop := v = PyVal.none ∨ ∃ q, v = PyVal.num q

/-- C4 counterexample: decoding is not total — `Deposit.__init__` applies
`float(size)` without a try/except, so `{"size": "abc"}` raises
`ValueError` and fails the whole record. -/
theorem deposit_decode_raises_on_bad_size :
    Deposit.ofData [("size", .str "abc")] = .error PyExn.valueError := by
  rfl

/-- C4 (amended): decoding a raw record is total only outside the
amount/fee/timestamp/id conversions: the try-guarded numeric fields
degrade to a typed zero or `None` on parse failure (`toFloat`,
`intOrNone`, `intOrZero` never fail the record, and `FundingToken`
construction is unconditionally total), and `Deposit`, `Withdrawal` and
`Transfer` construction succeeds whenever the unguarded raw values
(size/amt, fee, ts/cTime/createTime, and Deposit's id/depId) are absent
or numeric; a malformed value in one of those unguarded fields raises
instead. -/
theorem record_decoding_guarded_fields_total :
    (∀ (v : PyVal) (e : PyExn), pyFloat v = .error e → toFloat v = 0)
    ∧ (∀ (v : PyVal) (e : PyExn), pyInt v = .error e →
        intOrNone v = Option.none ∧ intOrZero v = 0)
    ∧ (∀ data : List (String × PyVal),
        numericOrAbsent (pyOr (pyGet data "size") (pyGet data "amt")) →
        numericOrAbsent (pyOr (pyOr (pyGet data "ts") (pyGet data "cTime"))
          (pyGet data "createTime")) →
        numericOrAbsent (pyOr (pyGet data "id") (pyGet data "depId")) →
        ∃ d, Deposit.ofData data = .ok d)
    ∧ (∀ data : List (String × PyVal),
        numericOrAbsent (pyGet data "fee") →
        numericOrAbsent (pyOr (pyGet data "size") (pyGet data "amt")) →
        numericOrAbsent (pyOr (pyOr (pyGet data "ts") (pyGet data "cTime"))
          (pyGet data "createTime")) →
        ∃ w, Withdrawal.ofData data = .ok w)
    ∧ (∀ data : List (String × PyVal),
        numericOrAbsent (pyOr (pyGet data "size") (pyGet data "amt")) →
        ∃ t, Transfer.ofData data = .ok t) := by
  have hfz : ∀ v : PyVal, numericOrAbsent v → ∃ q, floatOrZero v = .ok q := by
    rintro v (rfl | ⟨q, rfl⟩)
    · exact ⟨0, rfl⟩
    · exact ⟨q, rfl⟩
  have hts : ∀ v : PyVal, numericOrAbsent v → ∃ n, tsSeconds v = .ok n := by
    rintro v (rfl | ⟨q, rfl⟩)
    · exact ⟨0, rfl⟩
    · by_cases hq : q = 0
      · subst hq
        exact ⟨0, rfl⟩
      · refine ⟨pyTruncQ ((pyTruncQ q : ℚ) / 1000), ?_⟩
        simp [tsSeconds, PyVal.truthy, hq, pyInt]
  have hid : ∀ v : PyVal, numericOrAbsent v → ∃ n, intOrZeroIfAbsent v = .ok n := by
    rintro v (rfl | ⟨q, rfl⟩)
    · exact ⟨0, rfl⟩
    · exact ⟨pyTruncQ q, rfl⟩
  refine ⟨?_, ?_, ?_, ?_, ?_⟩
  · intro v e h
    simp [toFloat, h]
  · intro v e h
    constructor <;> simp [intOrNone, intOrZero, h]
  · intro data hsize hts' hid'
    obtain ⟨qa, ha⟩ := hfz _ hsize
    obtain ⟨nt, hn⟩ := hts _ hts'
    obtain ⟨ni, hni⟩ := hid _ hid'
    simp only [Deposit.ofData, ha, hn, hni, bind, Except.bind, pure, Except.pure]
    exact ⟨_, rfl⟩
  · intro data hfee hsize hts'
    obtain ⟨qf, hf⟩ := hfz _ hfee
    obtain ⟨qa, ha⟩ := hfz _ hsize
    obtain ⟨nt, hn⟩ := hts _ hts'
    simp only [Withdrawal.ofData, hf, ha, hn, bind, Except.bind, pure, Except.pure]
    exact ⟨_, rfl⟩
  · intro data hsize
    obtain ⟨qa, ha⟩ := hfz _ hsize
    simp only [Transfer.ofData, ha, bind, Except.bind, pure, Except.pure]
    exact ⟨_, rfl⟩

/-- C4 witness. -/
theorem record_decoding_guarded_fields_total_witness :
    (∃ d, Deposit.ofData [("size", .num 5), ("fromWdId", .str "oops")] = .ok d)
    ∧ (∃ w, Withdrawal.ofData [("id", .str "not-numeric")] = .ok w) :=
  ⟨record_decoding_guarded_fields_total.2.2.1 [("size", .num 5), ("fromWdId", .str "oops")]
      (Or.inr ⟨5, rfl⟩) (Or.inl rfl) (Or.inl rfl),
   record_decoding_guarded_fields_total.2.2.2.1 [("id", .str "not-numeric")]
      (Or.inl rfl) (Or.inl rfl) (Or.inl rfl)⟩

/-- C2: On a stale-timestamp response, `make_request` self-heals exactly
once: if the first decoded response's code is `"40008"`, it
resynchronizes the clock offset once more (`mrOffset2`), re-issues the
request exactly once — two requests total, never a third — with the
retried request `mrReq2` signed over the fresh offset-corrected
timestamp for the same method, path and body string as the first; if the
retried response's code is again not `"00000"` (including a second
`"40008"`), it raises `APIException` instead of retrying again. -/
theorem make_request_stale_timestamp_retries_once :
    ∀ (sk : String) (env : MkReqEnv) (method path : String)
      (body : Option (List (String × PyVal))) (r1 : List (String × PyVal)),
      env.resp1 = TResp.json r1 →
      pyGet r1 "code" = PyVal.str "40008" →
      (make_request sk env method path body).requests =
        [mrReq1 sk env method path body, mrReq2 sk env method path body]
      ∧ (make_request sk env method path body).syncCount = mrSyncs1 env + 1
      ∧ (make_request sk env method path body).finalOffset = mrOffset2 env
      ∧ (mrReq2 sk env method path body).timestamp = toString (env.nowD + mrOffset2 env)
      ∧ (∀ r2 : List (String × PyVal), env.resp2 = TResp.json r2 →
          pyStr (pyGet r2 "code") ≠ "00000" →
          (make_request sk env method path body).outcome =
            .error (.apiError r2)) := by
  intro sk env method path body r1 h1 h2
  obtain ⟨off0, nA, sA, nB, rsp1, nC, sC, nD, rsp2⟩ := env
  cases h1
  cases rsp2 with
  | exn =>
    refine ⟨?_, ?_, ?_, rfl, ?_⟩ <;> simp +decide [make_request, h2]
  | notDict =>
    refine ⟨?_, ?_, ?_, rfl, ?_⟩ <;> simp +decide [make_request, h2]
  | json r2' =>
    refine ⟨?_, ?_, ?_, rfl, ?_⟩
    · simp +decide [make_request, h2]
    · simp +decide [make_request, h2]
    · simp +decide [make_request, h2]
    · intro r2 heq hne
      injection heq with h
      subst h
      simp +decide [make_request, h2, mrCheckOutcome, hne]

/-- A transport oracle whose first response is a stale-timestamp error
and whose retried response is again `"40008"`. -/
def envStale : MkReqEnv :=
  { offset0 := 5, nowA := 0, serverA := Option.none, nowB := 100,
    resp1 := .json [("code", .str "40008")], nowC := 200, serverC := some 1000,
    nowD := 300, resp2 := .json [("code", .str "40008")] }

/-- C2 witness. -/
theorem make_request_stale_timestamp_retries_once_witness :
    (make_request "key" envStale "GET" "/p" Option.none).requests =
      [mrReq1 "key" envStale "GET" "/p" Option.none,
       mrReq2 "key" envStale "GET" "/p" Option.none]
    ∧ (make_request "key" envStale "GET" "/p" Option.none).syncCount = mrSyncs1 envStale + 1
    ∧ (make_request "key" envStale "GET" "/p" Option.none).finalOffset = mrOffset2 envStale
    ∧ (mrReq2 "key" envStale "GET" "/p" Option.none).timestamp =
        toString (envStale.nowD + mrOffset2 envStale)
    ∧ (∀ r2 : List (String × PyVal), envStale.resp2 = TResp.json r2 →
        pyStr (pyGet r2 "code") ≠ "00000" →
        (make_request "key" envStale "GET" "/p" Option.none).outcome =
          .error (.apiError r2)) :=
  make_request_stale_timestamp_retries_once "key" envStale "GET" "/p" Option.none
    [("code", .str "40008")] rfl rfl

/-- A transport oracle whose first response is a stale-timestamp error
and whose retried response decodes as a keyed document with no `code`
field. -/
def envRetryNoCode : MkReqEnv :=
  { offset0 := 5, nowA := 0, serverA := Option.none, nowB := 100,
    resp1 := .json [("code", .str "40008")], nowC := 200, serverC := some 1000,
    nowD := 300, resp2 := .json [("msg", .str "hi")] }

/-- C3 counterexample: a keyed response with no `code` field is NOT
returned unchanged on the retry path — after the single stale-timestamp
retry, the shared final check evaluates `str(None) = "None" ≠ "00000"`
and raises `APIException` instead of returning the document. -/
theorem make_request_codeless_retry_raises :
    (make_request "key" envRetryNoCode "GET" "/p" Option.none).outcome =
      .error (.apiError [("msg", .str "hi")])
    ∧ (make_request "key" envRetryNoCode "GET" "/p" Option.none).outcome ≠
      .ok [("msg", .str "hi")] := by
  have h : (make_request "key" envRetryNoCode "GET" "/p" Option.none).outcome =
      .error (.apiError [("msg", .str "hi")]) := rfl
  exact ⟨h, by rw [h]; simp⟩

/-- C3 (amended): a response that decodes as a keyed document but
carries no `code` field is returned unchanged when it is the FIRST
response; the response obtained from the single stale-timestamp retry is
instead re-checked against `"00000"` without the code-is-None guard, so
a code-less retried response raises `APIException` carrying it. -/
theorem make_request_codeless_response_passthrough :
    ∀ (sk : String) (env : MkReqEnv) (method path : String)
      (body : Option (List (String × PyVal))),
      (∀ r1 : List (String × PyVal), env.resp1 = TResp.json r1 →
        pyGet r1 "code" = PyVal.none →
        (make_request sk env method path body).outcome = .ok r1)
      ∧ (∀ r1 r2 : List (String × PyVal), env.resp1 = TResp.json r1 →
          pyGet r1 "code" = PyVal.str "40008" →
          env.resp2 = TResp.json r2 → pyGet r2 "code" = PyVal.none →
          (make_request sk env method path body).outcome =
            .error (.apiError r2)) := by
  intro sk env method path body
  obtain ⟨off0, nA, sA, nB, rsp1, nC, sC, nD, rsp2⟩ := env
  constructor
  · intro r1 h1 hc
    cases h1
    simp [make_request, hc]
  · intro r1 r2 h1 hc h2 hc2
    cases h1
    cases h2
    simp +decide [make_request, hc, hc2, mrCheckOutcome, pyStr]

/-- A transport oracle whose first response is a keyed document with no
`code` field. -/
def envNoCodeFirst : MkReqEnv :=
  { offset0 := 5, nowA := 0, serverA := Option.none, nowB := 1,
    resp1 := .json [("data", .str "x")], nowC := 2, serverC := Option.none,
    nowD := 3, resp2 := .exn }

/-- C3 witness. -/
theorem make_request_codeless_response_passthrough_witness :
    (make_request "key" envNoCodeFirst "GET" "/p" Option.none).outcome =
      .ok [("data", .str "x")]
    ∧ (make_request "key" envRetryNoCode "GET" "/p" Option.none).outcome =
      .error (.apiError [("msg", .str "hi")]) :=
  ⟨(make_request_codeless_response_passthrough "key" envNoCodeFirst "GET" "/p" Option.none).1
      [("data", .str "x")] rfl rfl,
   (make_request_codeless_response_passthrough "key" envRetryNoCode "GET" "/p" Option.none).2
      [("code", .str "40008")] [("msg", .str "hi")] rfl rfl rfl rfl⟩

/-- The alias strings of a chain-list entry: the string-valued alias
fields when the entry is a dict, nothing otherwise (non-dict entries are
skipped by the resolution loop). -/
def entryNames (c : PyVal) : List String :=
  match c with
  | .dict fields => chainNames fields
  | _ => []

/-- C6: Chain resolution is invariant under normalization: two
user-supplied chain strings with equal lowercased alphanumeric-only
normalizations resolve identically over the same currency chain list;
and a user string whose normalization matches no alias of any chain
entry by equality or substring-containment in either direction resolves
to nothing. -/
theorem resolve_chain_name_normalization_invariant :
    (∀ (chains : List PyVal) (u v : String), normChain u = normChain v →
      resolve_chain_name chains u = resolve_chain_name chains v)
    ∧ (∀ (chains : List PyVal) (u : String),
      (∀ c ∈ chains, ∀ n ∈ entryNames c,
        normChain n ≠ normChain u
        ∧ strContains (normChain u) (normChain n) = false
        ∧ strContains (normChain n) (normChain u) = false) →
      resolve_chain_name chains u = Option.none) := by
  constructor
  · intro chains u v h
    simp only [resolve_chain_name, h]
  · intro chains u h
    simp only [resolve_chain_name]
    by_cases hw : normChain u = ""
    · simp [hw]
    · rw [if_neg hw]
      induction chains with
      | nil => rfl
      | cons c rest ih =>
        have hrest := ih (fun c' hc' => h c' (List.mem_cons_of_mem _ hc'))
        have hc := h c (List.mem_cons_self _ _)
        cases c with
        | dict fields =>
          have hmatch : chainMatches (normChain u) fields = false := by
            simp only [entryNames] at hc
            simp only [chainMatches, Bool.or_eq_false_iff, List.any_eq_false]
            constructor
            · intro n hn
              simpa using (hc n hn).1
            · intro n hn
              simp [(hc n hn).2.1, (hc n hn).2.2]
          simpa [resolveChainFrom, hmatch] using hrest
        | none => simpa [resolveChainFrom] using hrest
        | num q => simpa [resolveChainFrom] using hrest
        | str s => simpa [resolveChainFrom] using hrest
        | list items => simpa [resolveChainFrom] using hrest
        | obj b => simpa [resolveChainFrom] using hrest

/-- A small fetched chain list, as `/api/v2/spot/public/coins` shapes
it. -/
def demoChains : List PyVal :=
  [.dict [("chain", .str "ERC20")],
   .dict [("chain", .str "ArbitrumOne"), ("chainName", .str "Arbitrum One")]]

/-- C6 witness. -/
theorem resolve_chain_name_normalization_invariant_witness :
    resolve_chain_name demoChains "arbitrum-one" = resolve_chain_name demoChains "Arbitrum One"
    ∧ resolve_chain_name demoChains "ARBITRUMONE" = resolve_chain_name demoChains "Arbitrum One"
    ∧ resolve_chain_name demoChains "dogecoin" = Option.none :=
  ⟨resolve_chain_name_normalization_invariant.1 demoChains "arbitrum-one" "Arbitrum One"
      (by decide),
   resolve_chain_name_normalization_invariant.1 demoChains "ARBITRUMONE" "Arbitrum One"
      (by decide),
   resolve_chain_name_normalization_invariant.2 demoChains "dogecoin" (by decide)⟩

/-- C7: `check_withdrawal_status` returns True only when some withdrawal
record in the fetched history matches both the destination address and
the chain AND that record's state string (lowercased) is in the
terminal-success set {success, completed, done, finished}; it returns
False when every matching record is in another state — in particular
when the (single) matching record is non-terminal — and when no record
matches at all. -/
theorem check_withdrawal_status_terminal_set :
    ∀ (records : List Withdrawal) (toAddress chain : String),
      (check_withdrawal_status records toAddress chain = true →
        ∃ tx ∈ records, matchesWithdrawal tx toAddress chain = true
          ∧ isTerminalState tx = true)
      ∧ ((∀ tx ∈ records, matchesWithdrawal tx toAddress chain = true →
          isTerminalState tx = false) →
        check_withdrawal_status records toAddress chain = false)
      ∧ ((∀ tx ∈ records, matchesWithdrawal tx toAddress chain = false) →
        check_withdrawal_status records toAddress chain = false) := by
  intro records toAddress chain
  induction records with
  | nil => exact ⟨by simp [check_withdrawal_status], fun _ => rfl, fun _ => rfl⟩
  | cons tx rest ih =>
    refine ⟨?_, ?_, ?_⟩
    · intro h
      by_cases hm : matchesWithdrawal tx toAddress chain = true
      · refine ⟨tx, List.mem_cons_self _ _, hm, ?_⟩
        simpa [check_withdrawal_status, hm] using h
      · rw [check_withdrawal_status, if_neg hm] at h
        obtain ⟨tx', htx', hm', ht'⟩ := ih.1 h
        exact ⟨tx', List.mem_cons_of_mem _ htx', hm', ht'⟩
    · intro h
      by_cases hm : matchesWithdrawal tx toAddress chain = true
      · rw [check_withdrawal_status, if_pos hm]
        exact h tx (List.mem_cons_self _ _) hm
      · rw [check_withdrawal_status, if_neg hm]
        exact ih.2.1 (fun tx' htx' => h tx' (List.mem_cons_of_mem _ htx'))
    · intro h
      rw [check_withdrawal_status, if_neg (by simp [h tx (List.mem_cons_self _ _)])]
      exact ih.2.2 (fun tx' htx' => h tx' (List.mem_cons_of_mem _ htx'))

/-- A concrete decoded withdrawal record. -/
def wdPendingRecord : Withdrawal :=
  { chain := .str "Optimism", fee := 0, tokenSymbol := .str "ETH",
    clientId := Option.none, amt := 1, txId := .none, from_ := .none,
    areaCodeFrom := .none, to_ := .str "0xA", areaCodeTo := .none,
    stateState := "pending", ts := 0, wdId := 7, nonTradableAsset := .none,
    tag := .none, pmtId := .none, memo := .none, addrEx := .none,
    feeCcy := .none }

/-- C7 witness. -/
theorem check_withdrawal_status_terminal_set_witness :
    check_withdrawal_status [wdPendingRecord] "0xA" "Optimism" = false
    ∧ check_withdrawal_status [wdPendingRecord] "0xB" "Optimism" = false :=
  ⟨(check_withdrawal_status_terminal_set [wdPendingRecord] "0xA" "Optimism").2.1
      (by decide),
   (check_withdrawal_status_terminal_set [wdPendingRecord] "0xB" "Optimism").2.2
      (by decide)⟩

/-- C8: `BitgetActions.withdraw` fails closed and never propagates an
exception: for every environment it returns either a (truthy) withdrawal
id or False; it returns False whenever the client is unconfigured,
whenever chain-name resolution fails (returns nothing or raises),
whenever the underlying withdrawal call raises, and whenever no id can
be extracted from the ordered candidate id fields of the response. -/
theorem withdraw_fails_closed :
    ∀ env : WithdrawEnv,
      ((∃ v, withdraw env = .id v ∧ v.truthy = true) ∨ withdraw env = .failed)
      ∧ (env.clientConfigured = false → withdraw env = .failed)
      ∧ (∀ e, env.resolveOutcome = .error e → withdraw env = .failed)
      ∧ (env.resolveOutcome = .ok Option.none → withdraw env = .failed)
      ∧ (∀ e, env.callOutcome = .error e → withdraw env = .failed)
      ∧ (∀ resp wt, env.callOutcome = .ok resp →
          WithdrawalToken.ofData (pyGet resp "data") = .ok wt →
          (candidatesOf wt).find? PyVal.truthy = Option.none →
          withdraw env = .failed) := by
  intro env
  obtain ⟨cc, ro, co⟩ := env
  cases cc with
  | false =>
    refine ⟨Or.inr rfl, fun _ => rfl, fun _ _ => rfl, fun _ => rfl, fun _ _ => rfl,
      fun _ _ _ _ _ => rfl⟩
  | true =>
    cases ro with
    | error e =>
      refine ⟨Or.inr rfl, ?_, fun _ _ => rfl, ?_, fun _ _ => rfl, fun _ _ _ _ _ => rfl⟩
      · intro h; cases h
      · intro h; cases h
    | ok rOpt =>
      cases rOpt with
      | none =>
        refine ⟨Or.inr rfl, ?_, ?_, fun _ => rfl, fun _ _ => rfl, fun _ _ _ _ _ => rfl⟩
        · intro h; cases h
        · intro e h; cases h
      | some rv =>
        by_cases hrv : rv.truthy = true
        · cases co with
          | error e =>
            refine ⟨Or.inr ?_, ?_, ?_, ?_, fun _ _ => ?_, fun _ _ hco _ _ => ?_⟩
            · simp [withdraw, withdrawInner, hrv, bind, Except.bind, pure, Except.pure]
            · intro h; cases h
            · intro e' h; cases h
            · intro h; injection h with h'; cases h'
            · simp [withdraw, withdrawInner, hrv, bind, Except.bind, pure, Except.pure]
            · cases hco
          | ok resp =>
            refine ⟨?_, ?_, ?_, ?_, ?_, ?_⟩
            · cases hwt : WithdrawalToken.ofData (pyGet resp "data") with
              | error e =>
                exact Or.inr (by simp [withdraw, withdrawInner, hrv, hwt])
              | ok wt =>
                cases hfind : (candidatesOf wt).find? PyVal.truthy with
                | none =>
                  exact Or.inr (by simp [withdraw, withdrawInner, hrv, hwt, hfind, bind, Except.bind, pure, Except.pure])
                | some v =>
                  refine Or.inl ⟨v, by simp [withdraw, withdrawInner, hrv, hwt, hfind, bind, Except.bind, pure, Except.pure],
                    List.find?_some hfind⟩
            · intro h; cases h
            · intro e h; cases h
            · intro h; injection h with h'; cases h'
            · intro e h; cases h
            · intro resp' wt hco hwt hfind
              injection hco with h'
              subst h'
              simp [withdraw, withdrawInner, hrv, hwt, hfind, bind, Except.bind, pure, Except.pure]
        · refine ⟨Or.inr ?_, ?_, ?_, ?_, fun _ _ => ?_, fun _ _ _ _ _ => ?_⟩
          · simp [withdraw, withdrawInner, hrv, bind, Except.bind, pure, Except.pure]
          · intro h; cases h
          · intro e h; cases h
          · intro h; injection h with h'; cases h'
          · simp [withdraw, withdrawInner, hrv, bind, Except.bind, pure, Except.pure]
          · simp [withdraw, withdrawInner, hrv, bind, Except.bind, pure, Except.pure]

/-- No client was constructed (incomplete credentials). -/
def envNoClient : WithdrawEnv :=
  { clientConfigured := false, resolveOutcome := .ok (some (.str "Optimism")),
    callOutcome := .ok [] }

/-- Chain resolution finds nothing. -/
def envNoResolve : WithdrawEnv :=
  { clientConfigured := true, resolveOutcome := .ok Option.none, callOutcome := .ok [] }

/-- The underlying withdrawal call raises `APIException`. -/
def envCallRaises : WithdrawEnv :=
  { clientConfigured := true, resolveOutcome := .ok (some (.str "Optimism")),
    callOutcome := .error (.apiException Option.none) }

/-- The call succeeds but no candidate id field is populated. -/
def envNoId : WithdrawEnv :=
  { clientConfigured := true, resolveOutcome := .ok (some (.str "Optimism")),
    callOutcome := .ok [("data", .dict [])] }

/-- C8 witness. -/
theorem withdraw_fails_closed_witness :
    withdraw envNoClient = .failed
    ∧ withdraw envNoResolve = .failed
    ∧ withdraw envCallRaises = .failed
    ∧ withdraw envNoId = .failed :=
  ⟨(withdraw_fails_closed envNoClient).2.1 rfl,
   (withdraw_fails_closed envNoResolve).2.2.2.1 rfl,
   (withdraw_fails_closed envCallRaises).2.2.2.2.1 (.apiException Option.none) rfl,
   (withdraw_fails_closed envNoId).2.2.2.2.2 [("data", .dict [])]
      { dataVal := .dict [], amt := 0, wdId := 0, tokenSymbol := .none,
        clientId := Option.none, chain := .none }
      rfl rfl rfl⟩

/-- Every successful `_get_master_uid` call leaves exactly the returned
uid in the cache (on the cached path it was already there). -/
theorem getMasterUid_caches_uid :
    ∀ (cache : Option String) (resp : List (String × PyVal)) (uid : String)
      (cache2 : Option String) (fetched : Bool),
      getMasterUid cache resp = .ok (uid, cache2, fetched) → cache2 = some uid := by
  intro cache resp uid cache2 fetched h
  simp only [getMasterUid, bind, Except.bind] at h
  split at h
  · next hct =>
    cases cache with
    | none => simp at hct
    | some s =>
      simp only [Option.getD] at h
      simp only [Except.ok.injEq, Prod.mk.injEq] at h
      obtain ⟨rfl, rfl, rfl⟩ := h
      rfl
  · split at h
    · exact absurd h (by simp)
    · split at h
      · split at h
        · split at h
          · exact absurd h (by simp)
          · simp only [pure, Except.pure, Except.ok.injEq, Prod.mk.injEq] at h
            obtain ⟨rfl, rfl, rfl⟩ := h
            rfl
        · simp only [pure, Except.pure, Except.ok.injEq, Prod.mk.injEq] at h
          obtain ⟨rfl, rfl, rfl⟩ := h
          rfl
      · simp only [pure, Except.pure, Except.ok.injEq, Prod.mk.injEq] at h
        obtain ⟨rfl, rfl, rfl⟩ := h
        rfl

/-- An account-info response whose `data` dict carries no `userId`. -/
def respNoUid : List (String × PyVal) := [("data", .dict [])]

/-- C9 counterexample: the master uid is NOT resolved at most once per
client instance. When the account-info endpoint yields no `userId`, the
empty string is cached, the truthiness guard treats it as unset, and the
next transfer that supplies a subaccount id issues the account-info
request again (`fetched = true` on both calls). -/
theorem master_uid_refetched_on_empty :
    transferUidStep (.str "sub1") Option.none respNoUid = .ok (some "", true)
    ∧ transferUidStep (.str "sub1") (some "") respNoUid = .ok (some "", true) :=
  ⟨rfl, rfl⟩

/-- C9 (amended): a transfer call without a subaccount id issues no
account-info request; the first call that supplies one fetches the
master uid; and once a call yields a NON-EMPTY uid, that uid is cached
and every subsequent subaccount transfer on the same client instance
reuses it without issuing another account-info request. An empty
resolved uid is cached falsy and re-fetched on the next call. -/
theorem master_uid_cached_once_when_nonempty :
    ∀ (subAcct : PyVal) (cache cache2 : Option String)
      (resp : List (String × PyVal)) (uid : String) (fetched : Bool),
      (subAcct.truthy = false → transferUidStep subAcct cache resp = .ok (cache, false))
      ∧ (∀ r, getMasterUid Option.none resp = .ok r → r.2.2 = true)
      ∧ (subAcct.truthy = true →
          getMasterUid cache resp = .ok (uid, cache2, fetched) → uid ≠ "" →
          ∀ resp2, transferUidStep subAcct cache2 resp2 = .ok (cache2, false)) := by
  intro subAcct cache cache2 resp uid fetched
  refine ⟨?_, ?_, ?_⟩
  · intro h
    simp [transferUidStep, h]
  · intro r h
    simp only [getMasterUid, bind, Except.bind] at h
    split at h
    · next hct => simp at hct
    · split at h
      · exact absurd h (by simp)
      · split at h
        · split at h
          · split at h
            · exact absurd h (by simp)
            · simp only [pure, Except.pure, Except.ok.injEq] at h
              rw [← h]
          · simp only [pure, Except.pure, Except.ok.injEq] at h
            rw [← h]
        · simp only [pure, Except.pure, Except.ok.injEq] at h
          rw [← h]
  · intro hsub h hne resp2
    have hc2 : cache2 = some uid := getMasterUid_caches_uid cache resp uid cache2 fetched h
    subst hc2
    simp [transferUidStep, hsub, getMasterUid, hne, Except.map]

/-- C9 witness. -/
theorem master_uid_cached_once_when_nonempty_witness :
    transferUidStep PyVal.none (some "777") respNoUid = .ok (some "777", false)
    ∧ transferUidStep (.str "sub1") (some "777") respNoUid = .ok (some "777", false) :=
  ⟨(master_uid_cached_once_when_nonempty PyVal.none (some "777") (some "777")
      respNoUid "777" false).1 rfl,
   (master_uid_cached_once_when_nonempty (.str "sub1") (some "777") (some "777")
      [("data", .dict [("userId", .num 777)])] "777" false).2.2 rfl rfl
      (by decide) respNoUid⟩
